import Mathlib

/-!
A shallow embedding of the vendoring engine in `scripts/vendor.py`
(`VendorManager`): glob-based pattern matching (`_matches_pattern`,
`_should_include_file`), the version ledger (`_save_version_info`,
`_get_current_version`), the folder walk (`_vendor_folder`), the flat file
copy loop (`_vendor_files`), repository materialization
(`_clone_repository`) and the orchestrator (`check_and_update`), together
with theorems settling the specification claims about them.
-/

namespace Vendor

/-- Tokens of a glob pattern as understood by Python's `fnmatch`:
`*`, `?`, character classes `[...]` (optionally negated with a leading `!`),
and literal characters. -/
inductive GlobTok where
  | star : GlobTok
  | qmark : GlobTok
  | cls : Bool → List Char → GlobTok
  | lit : Char → GlobTok
deriving DecidableEq

/-- Does character `c` match the body of a character class?  Mirrors the
range handling of `fnmatch.translate`: `a-b` inside a class is a range,
while a `-` in leading or trailing position is a literal. -/
def classMatch (c : Char) : List Char → Bool
  | a :: '-' :: b :: rest => (a ≤ c && c ≤ b) || classMatch c rest
  | a :: rest => (a == c) || classMatch c rest
  | [] => false

/-- Scan a character-class body up to the closing `]`.  Returns the body and
the remainder of the pattern, or `none` when the class is unterminated. -/
def scanClass : List Char → Option (List Char × List Char)
  | [] => none
  | ']' :: rest => some ([], rest)
  | c :: rest => (scanClass rest).map fun p => (c :: p.1, p.2)

/-- Parse a character class from the characters following `[`: an optional
negating `!`, then the body, where a `]` in first position belongs to the
body (as in `fnmatch.translate`).  Returns `(negated, body, remainder)`. -/
def parseClass : List Char → Option (Bool × List Char × List Char)
  | '!' :: ']' :: r => (scanClass r).map fun p => (true, ']' :: p.1, p.2)
  | '!' :: r => (scanClass r).map fun p => (true, p.1, p.2)
  | ']' :: r => (scanClass r).map fun p => (false, ']' :: p.1, p.2)
  | r => (scanClass r).map fun p => (false, p.1, p.2)

/-- Tokenize a glob pattern.  `fuel` bounds the recursion depth; every step
consumes at least one input character, so the input length always suffices
(see `tokenizeGlob`).  An unterminated `[` is a literal character, exactly as
in `fnmatch.translate`. -/
def tokenizeAux : Nat → List Char → List GlobTok
  | 0, _ => []
  | _ + 1, [] => []
  | fuel + 1, '*' :: rest => GlobTok.star :: tokenizeAux fuel rest
  | fuel + 1, '?' :: rest => GlobTok.qmark :: tokenizeAux fuel rest
  | fuel + 1, '[' :: rest =>
    match parseClass rest with
    | some (neg, body, rem) => GlobTok.cls neg body :: tokenizeAux fuel rem
    | none => GlobTok.lit '[' :: tokenizeAux fuel rest
  | fuel + 1, c :: rest => GlobTok.lit c :: tokenizeAux fuel rest

/-- Tokenized form of a glob pattern. -/
def tokenizeGlob (pat : List Char) : List GlobTok :=
  tokenizeAux pat.length pat

/-- Core matcher: does the whole string match the token list?  `*` matches
any (possibly empty) sequence of characters, including `/`, exactly like the
`.*` that `fnmatch.translate` produces for it.  `fuel` bounds the recursion
depth; every recursive call shortens the string or the token list, so
`s.length + toks.length + 1` always suffices (see `fnmatch`). -/
def globMatchAux : Nat → List Char → List GlobTok → Bool
  | 0, _, _ => false
  | _ + 1, [], [] => true
  | fuel + 1, s, GlobTok.star :: ps =>
    globMatchAux fuel s ps ||
      (match s with
       | [] => false
       | _ :: s2 => globMatchAux fuel s2 (GlobTok.star :: ps))
  | _ + 1, [], _ :: _ => false
  | _ + 1, _ :: _, [] => false
  | fuel + 1, _ :: s, GlobTok.qmark :: ps => globMatchAux fuel s ps
  | fuel + 1, c :: s, GlobTok.cls neg body :: ps =>
    (if neg then !(classMatch c body) else classMatch c body) && globMatchAux fuel s ps
  | fuel + 1, c :: s, GlobTok.lit a :: ps => (a == c) && globMatchAux fuel s ps

/-- Python `fnmatch.fnmatch(name, pattern)` on a POSIX system, where
`os.path.normcase` is the identity: the whole name must match the pattern. -/
def fnmatch (name pat : String) : Bool :=
  globMatchAux (name.data.length + pat.data.length + 1) name.data (tokenizeGlob pat.data)

/-- `_matches_pattern` (vendor.py lines 121-129): `True` when the pattern
list is empty, otherwise `True` iff `file_path` matches at least one of the
patterns via `fnmatch.fnmatch`. -/
def matches_pattern (file_path : String) (patterns : List String) : Bool :=
  if patterns.isEmpty then true
  else patterns.any fun p => fnmatch file_path p

/-- `_should_include_file` (vendor.py lines 131-147). -/
def should_include_file (file_path : String)
    (include_patterns exclude_patterns : List String) : Bool :=
  let include_match :=
    if include_patterns.isEmpty then true
    else matches_pattern file_path include_patterns
  let exclude_match :=
    if exclude_patterns.isEmpty then false
    else matches_pattern file_path exclude_patterns
  include_match && !exclude_match

/-- The characters stripped by Python's default `str.strip()`: ASCII
whitespace together with the Unicode whitespace code points. -/
def isPySpace (c : Char) : Bool :=
  let n := c.toNat
  (0x09 ≤ n && n ≤ 0x0d) || n == 0x20 || (0x1c ≤ n && n ≤ 0x1f) ||
  n == 0x85 || n == 0xa0 || n == 0x1680 || (0x2000 ≤ n && n ≤ 0x200a) ||
  n == 0x2028 || n == 0x2029 || n == 0x202f || n == 0x205f || n == 0x3000

/-- `str.strip()` on a character list: drop whitespace from the tail end,
then from the front (stripping the two ends is order-independent). -/
def stripChars (l : List Char) : List Char :=
  ((l.reverse.dropWhile isPySpace).reverse).dropWhile isPySpace

/-- Python `str.strip()` with no arguments. -/
def pyStrip (s : String) : String := ⟨stripChars s.data⟩

/-- Content of the `<destination>/.vendor_version` marker: `none` models an
absent file (never vendored), `some c` a file with content `c`. -/
abbrev VersionFile := Option String

/-- `_save_version_info` (vendor.py lines 71-87), restricted to the
`.vendor_version` marker it writes: the file is (re)created with the version
tag followed by a newline, regardless of any previous content.  (The
`.vendor_info` JSON record and the `mkdir` call do not affect the version
read-back and are not modelled.) -/
def save_version_info (_st : VersionFile) (version : String) : VersionFile :=
  some (version ++ "\n")

/-- `_get_current_version` (vendor.py lines 63-69): `None` when the marker
file does not exist, otherwise its content with `str.strip()` applied. -/
def get_current_version (st : VersionFile) : Option String :=
  st.map pyStrip

/-- A directory entry of the materialized snapshot: a file or a
subdirectory.  (File contents play no role in selection or destination
computation, so they are not carried.) -/
inductive Entry where
  | file : String → Entry
  | dir : String → List Entry → Entry

/-- Join of a relative prefix and a name, as produced by
`file_path.relative_to(src_folder)`: at the walk's root the relative path is
the bare file name. -/
def joinRel (pre name : String) : String :=
  if pre = "" then name else pre ++ "/" ++ name

/-- The `os.walk` loop of `_vendor_folder` (vendor.py lines 171-202).
Returns the relative paths of every file the loop iterates over (files in
directories that were not pruned) and the `(rel_path, dst_path)` pairs of
the files actually copied.  Subdirectories whose NAME matches an exclude
pattern are pruned (`dirs[:] = [d for d in dirs if not
_matches_pattern(d, exclude_patterns)]`, line 175) and never descended
into. -/
def walkAux (incPats excPats : List String) (preserve : Bool) (fdst : String) :
    String → List Entry → List String × List (String × String)
  | _, [] => ([], [])
  | pre, Entry.file n :: rest =>
    let rel := joinRel pre n
    let res := walkAux incPats excPats preserve fdst pre rest
    let copies :=
      if should_include_file rel incPats excPats then
        (rel, fdst ++ "/" ++ (if preserve then rel else n)) :: res.2
      else res.2
    (rel :: res.1, copies)
  | pre, Entry.dir d ch :: rest =>
    let sub :=
      if matches_pattern d excPats then ([], [])
      else walkAux incPats excPats preserve fdst (joinRel pre d) ch
    let res := walkAux incPats excPats preserve fdst pre rest
    (sub.1 ++ res.1, sub.2 ++ res.2)

/-- A folder rule from `vendor.folders`: `preserve_structure = none` models
a configuration that omits the key —
`folder_config.get("preserve_structure", True)` then yields the default. -/
structure FolderConfig where
  path : String
  incPatterns : List String
  excPatterns : List String
  preserve_structure : Option Bool
deriving DecidableEq

/-- `Path(p).name`: the final path component, ignoring trailing slashes
(for paths without `.` components, which `pathlib` would normalize away). -/
def baseName (p : String) : String :=
  ⟨((p.data.reverse.dropWhile fun c => c == '/').takeWhile fun c => !(c == '/')).reverse⟩

/-- `_vendor_folder` (vendor.py lines 118-202) applied to an existing source
directory with entries `entries`: walks the tree rooted there and returns
the visited relative file paths together with the performed copies
`(rel_path, dst_path)`.  The folder is vendored into
`folder_destination = destination / Path(folder_path).name`, and
`preserve_structure` defaults to `True` when the key is absent. -/
def vendor_folder (destination : String) (cfg : FolderConfig)
    (entries : List Entry) : List String × List (String × String) :=
  let folder_destination := destination ++ "/" ++ baseName cfg.path
  walkAux cfg.incPatterns cfg.excPatterns (cfg.preserve_structure.getD true)
    folder_destination "" entries

/-- Destination path of a flat (individual) file entry in `_vendor_files`
(vendor.py line 211): `destination / Path(file_path).name` — directory
prefixes of the source path are discarded. -/
def file_dst (destination file_path : String) : String :=
  destination ++ "/" ++ baseName file_path

/-- The destination tree as a map from absolute path to file content. -/
abbrev DestStore := String → Option String

/-- One iteration of the flat file loop in `_vendor_files` (vendor.py lines
209-219): a source path absent from the snapshot is skipped with a warning;
otherwise the file's content is copied to `file_dst`, overwriting whatever
was there. -/
def copy_file_step (snapshot : List (String × String)) (destination : String)
    (st : DestStore) (file_path : String) : DestStore :=
  match snapshot.lookup file_path with
  | none => st
  | some content =>
    fun k => if k = file_dst destination file_path then some content else st k

/-- The flat file loop of `_vendor_files`, processing `files_to_vendor` in
list order. -/
def vendor_files_flat (snapshot : List (String × String)) (destination : String)
    (files : List String) (st : DestStore) : DestStore :=
  files.foldl (copy_file_step snapshot destination) st

/-- Outcome of one `subprocess.run(..., check=True)` call: success,
`CalledProcessError` (the command exited non-zero), or any other exception
(for example `FileNotFoundError` when the `git` executable is absent). -/
inductive ProcOutcome where
  | ok : ProcOutcome
  | exitFailure : ProcOutcome
  | otherError : ProcOutcome
deriving DecidableEq

/-- The outcomes of the two subprocess calls made by `_clone_repository`:
`git clone --depth 1` and `git checkout <sha>`. -/
structure CloneEnv where
  cloneOut : ProcOutcome
  checkoutOut : ProcOutcome
deriving DecidableEq

/-- Result of `_clone_repository`: the temporary directory is returned,
or a `RuntimeError` is raised from the `except subprocess.CalledProcessError`
clause, or an exception matching no except clause propagates as-is. -/
inductive CloneResult where
  | ok : CloneResult
  | runtimeError : CloneResult
  | uncaughtError : CloneResult
deriving DecidableEq

/-- `_clone_repository` (vendor.py lines 89-116): `tempfile.mkdtemp`, then
the clone and checkout subprocesses with `check=True`; only
`subprocess.CalledProcessError` is caught, triggering
`shutil.rmtree(temp_dir)` followed by `raise RuntimeError(...)`.  The
boolean records whether the temporary directory was removed. -/
def clone_repository (e : CloneEnv) : CloneResult × Bool :=
  match e.cloneOut with
  | ProcOutcome.exitFailure => (CloneResult.runtimeError, true)
  | ProcOutcome.otherError => (CloneResult.uncaughtError, false)
  | ProcOutcome.ok =>
    match e.checkoutOut with
    | ProcOutcome.exitFailure => (CloneResult.runtimeError, true)
    | ProcOutcome.otherError => (CloneResult.uncaughtError, false)
    | ProcOutcome.ok => (CloneResult.ok, false)

/-- The steps `check_and_update` can perform, in execution order.
`cleanup` is the `finally:` removal of the temporary clone. -/
inductive Step where
  | resolve : Step
  | readCurrent : Step
  | clone : Step
  | vendorStep : Step
  | saveVersion : Step
  | cleanup : Step
deriving DecidableEq

/-- Outcomes of the effectful sub-calls of `check_and_update`: `latest` is
the `(tag_name, target_commitish)` pair returned by `_get_latest_version`,
or the exception it raised; `currentVersion` is the `_get_current_version`
read-back; the remaining fields give each later sub-call's outcome, an
`Except.error` modelling a raised exception. -/
structure OrchEnv where
  latest : Except String (String × String)
  currentVersion : Option String
  cloneResult : Except String Unit
  vendorResult : Except String Unit
  saveResult : Except String Unit

/-- The body of the `try:` block of `check_and_update` (vendor.py lines
231-254), including its inner `try/finally`: the result (or uncaught
exception) paired with the trace of performed steps.  When `force` is false
and the stored version equals the latest tag (`None` never equals a
string), the function returns `False` before cloning; the `finally:`
cleanup runs whenever the clone succeeded, regardless of later outcomes. -/
def check_and_update_body (env : OrchEnv) (force : Bool) :
    Except String Bool × List Step :=
  match env.latest with
  | Except.error e => (Except.error e, [Step.resolve])
  | Except.ok (version, _sha) =>
    if !force && env.currentVersion == some version then
      (Except.ok false, [Step.resolve, Step.readCurrent])
    else
      match env.cloneResult with
      | Except.error e =>
        (Except.error e, [Step.resolve, Step.readCurrent, Step.clone])
      | Except.ok _ =>
        match env.vendorResult with
        | Except.error e =>
          (Except.error e,
            [Step.resolve, Step.readCurrent, Step.clone, Step.vendorStep,
              Step.cleanup])
        | Except.ok _ =>
          match env.saveResult with
          | Except.error e =>
            (Except.error e,
              [Step.resolve, Step.readCurrent, Step.clone, Step.vendorStep,
                Step.saveVersion, Step.cleanup])
          | Except.ok _ =>
            (Except.ok true,
              [Step.resolve, Step.readCurrent, Step.clone, Step.vendorStep,
                Step.saveVersion, Step.cleanup])

/-- `check_and_update` (vendor.py lines 225-258): the whole body runs inside
`try: ... except Exception as e: print(...); return False`. -/
def check_and_update (env : OrchEnv) (force : Bool) : Bool × List Step :=
  match check_and_update_body env force with
  | (Except.ok b, t) => (b, t)
  | (Except.error _, t) => (false, t)

/-- The folder rule of the specification's traversal scenario:
`{path: "include", include: ["*.h"], exclude: ["internal/*"],
preserve_structure: true}`. -/
def scenarioConfig : FolderConfig :=
  ⟨"include", ["*.h"], ["internal/*"], some true⟩

/-- The snapshot of the specification's traversal scenario: the `include`
folder holds `a.h`, `internal/b.h` and `c.txt`. -/
def scenarioEntries : List Entry :=
  [Entry.file "a.h", Entry.dir "internal" [Entry.file "b.h"], Entry.file "c.txt"]

/-- Claim C3: `_should_include_file(P, include, exclude)` returns `True`
iff (the include list is empty, or `P` glob-matches at least one include
pattern) and not (the exclude list is non-empty and `P` glob-matches at
least one exclude pattern); in particular it returns `True` for every path
when both lists are empty. -/
theorem should_include_file_spec (P : String) (inc exc : List String) :
    (should_include_file P inc exc = true ↔
      ((inc = [] ∨ inc.any (fun p => fnmatch P p) = true) ∧
        ¬(exc ≠ [] ∧ exc.any (fun p => fnmatch P p) = true)))
    ∧ should_include_file P [] [] = true := by
  refine ⟨?_, rfl⟩
  unfold should_include_file matches_pattern
  cases inc <;> cases exc <;> simp

/-- Claim C7: writing a ledger entry with version tag `"v2.3.0"` and then
reading the current persisted version returns exactly `"v2.3.0"`, from any
prior ledger state; reading when no entry was ever written returns
absence. -/
theorem ledger_roundtrip_v230 :
    (∀ st : VersionFile,
      get_current_version (save_version_info st "v2.3.0") = some "v2.3.0")
    ∧ get_current_version none = none := by
  refine ⟨fun st => ?_, rfl⟩
  show some (pyStrip ("v2.3.0" ++ "\n")) = some "v2.3.0"
  decide

/-- Appending a whitespace character (such as the `"\n"` written by
`_save_version_info`) does not change the result of `str.strip()`. -/
theorem stripChars_concat_space (l : List Char) (c : Char)
    (h : isPySpace c = true) :
    stripChars (l ++ [c]) = stripChars l := by
  show (List.rdropWhile isPySpace (l ++ [c])).dropWhile isPySpace
      = (List.rdropWhile isPySpace l).dropWhile isPySpace
  rw [List.rdropWhile_concat_pos isPySpace l c h]

/-- `str.strip()` is idempotent: a stripped string has no leading or
trailing whitespace left to remove. -/
theorem stripChars_idem (l : List Char) :
    stripChars (stripChars l) = stripChars l := by
  have h2 : List.rdropWhile isPySpace (stripChars l) = stripChars l := by
    rw [List.rdropWhile_eq_self_iff]
    intro hl
    obtain ⟨t, ht⟩ := List.dropWhile_suffix (l := List.rdropWhile isPySpace l) isPySpace
    have hm : List.rdropWhile isPySpace l ≠ [] := by
      intro hnil
      apply hl
      show (List.rdropWhile isPySpace l).dropWhile isPySpace = []
      rw [hnil]
      rfl
    have key : ∀ (l₁ l₂ : List Char) (he : l₁ = l₂) (h₁ : l₁ ≠ []) (h₂ : l₂ ≠ []),
        l₁.getLast h₁ = l₂.getLast h₂ := by
      intro l₁ l₂ he h₁ h₂
      subst he
      rfl
    have h1 : t ++ List.dropWhile isPySpace (List.rdropWhile isPySpace l) ≠ [] := by
      rw [ht]
      exact hm
    have hlast : (stripChars l).getLast hl = (List.rdropWhile isPySpace l).getLast hm := by
      calc (stripChars l).getLast hl
          = (t ++ List.dropWhile isPySpace (List.rdropWhile isPySpace l)).getLast h1 :=
            (List.getLast_append' t _ hl).symm
        _ = (List.rdropWhile isPySpace l).getLast hm := key _ _ ht h1 hm
    rw [hlast]
    exact List.rdropWhile_last_not isPySpace l hm
  calc stripChars (stripChars l)
      = (List.rdropWhile isPySpace (stripChars l)).dropWhile isPySpace := rfl
    _ = (stripChars l).dropWhile isPySpace := by rw [h2]
    _ = ((List.rdropWhile isPySpace l).dropWhile isPySpace).dropWhile isPySpace := rfl
    _ = (List.rdropWhile isPySpace l).dropWhile isPySpace := List.dropWhile_idempotent _ _
    _ = stripChars l := rfl

/-- Claim C8: writing a ledger entry with version `v` and reading it back
returns `v` with surrounding whitespace stripped; every value the read-back
can return is equal to its own stripped form; and the exact write-then-read
round-trip holds precisely for version tags that equal their own stripped
form. -/
theorem ledger_roundtrip_strip (st : VersionFile) (v r : String) :
    get_current_version (save_version_info st v) = some (pyStrip v)
    ∧ (get_current_version st = some r → pyStrip r = r)
    ∧ (get_current_version (save_version_info st v) = some v ↔ pyStrip v = v) := by
  have hv : pyStrip (v ++ "\n") = pyStrip v := by
    apply String.ext
    show stripChars (v ++ "\n").data = stripChars v.data
    have hd : (v ++ "\n").data = v.data ++ ['\n'] := rfl
    rw [hd]
    exact stripChars_concat_space v.data '\n' (by decide)
  refine ⟨?_, ?_, ?_⟩
  · show some (pyStrip (v ++ "\n")) = some (pyStrip v)
    rw [hv]
  · intro h
    cases st with
    | none => simp [get_current_version] at h
    | some c =>
      simp only [get_current_version, Option.map_some', Option.some.injEq] at h
      subst h
      exact String.ext (stripChars_idem c.data)
  · show some (pyStrip (v ++ "\n")) = some v ↔ pyStrip v = v
    rw [hv]
    exact Option.some_inj

/-- Witness for `ledger_roundtrip_strip` at concrete ledger contents. -/
theorem ledger_roundtrip_strip_witness :
    pyStrip "v1" = "v1"
    ∧ get_current_version (save_version_info none " v2.3.0 ") = some "v2.3.0" := by
  constructor
  · exact (ledger_roundtrip_strip (some " v1 \n") "x" "v1").2.1 (by decide)
  · rw [(ledger_roundtrip_strip none " v2.3.0 " "x").1]
    decide

/-- Claim C1 (behaviour of the code at the failing input): with an EMPTY
exclude list, `_matches_pattern` returns `True` for every directory name,
so the walk prunes every subdirectory: for the rule
`{path: "include", include: [], exclude: []}` over a snapshot holding
`include/sub/x.h` and `include/a.h`, only the top-level `a.h` is visited
and copied, and `sub/x.h` is never reached — contradicting the claim (and
the spec's "empty exclude-pattern set excludes nothing"). -/
theorem empty_exclude_prunes_every_subdir :
    vendor_folder "dest" ⟨"include", [], [], some true⟩
      [Entry.dir "sub" [Entry.file "x.h"], Entry.file "a.h"]
      = (["a.h"], [("a.h", "dest/include/a.h")])
    ∧ matches_pattern "sub" [] = true := by
  constructor
  · simp only [vendor_folder, walkAux]
    decide
  · rfl

/-- Claim C2 counterexample: in the scenario rule
`{path: "include", include: ["*.h"], exclude: ["internal/*"]}`, the
`internal/` subtree IS traversed: the directory name `internal` does not
glob-match the exclude pattern `internal/*`, so the directory is not
pruned, and its file `internal/b.h` is visited by the walk. -/
theorem internal_subtree_is_traversed :
    "internal/b.h" ∈ (vendor_folder "dest" scenarioConfig scenarioEntries).1
    ∧ matches_pattern "internal" ["internal/*"] = false := by
  constructor
  · simp only [vendor_folder, walkAux, scenarioConfig, scenarioEntries]
    decide
  · decide

/-- Claim C2 as amended: the destination receives exactly `include/a.h`
(`c.txt` fails the include filter, and `internal/b.h`, though visited, is
rejected by the file-level exclude match on its relative path), while the
walk visits `a.h`, `internal/b.h` and `c.txt`. -/
theorem scenario_copies_only_a_h :
    vendor_folder "dest" scenarioConfig scenarioEntries
      = (["a.h", "internal/b.h", "c.txt"], [("a.h", "dest/include/a.h")]) := by
  simp only [vendor_folder, walkAux, scenarioConfig, scenarioEntries]
  decide

/-- With `preserve_structure` in force, every copy produced by the walk
lands at `<folder destination>/<relative path>`. -/
theorem walkAux_preserve_dst (incPats excPats : List String) (fdst : String) :
    ∀ pre es rel dst,
      (rel, dst) ∈ (walkAux incPats excPats true fdst pre es).2 →
      dst = fdst ++ "/" ++ rel := by
  intro pre es
  induction pre, es using walkAux.induct incPats excPats true fdst with
  | case1 x =>
    intro rel dst h
    simp [walkAux] at h
  | case2 pre n rest ih =>
    intro rel dst h
    by_cases hinc : should_include_file (joinRel pre n) incPats excPats
    · simp only [walkAux, hinc, if_true] at h
      rcases List.mem_cons.mp h with h | h
      · rw [Prod.mk.injEq] at h
        rw [h.2, h.1]
      · exact ih rel dst h
    · simp only [walkAux, hinc, if_false, Bool.false_eq_true] at h
      exact ih rel dst h
  | case3 pre d ch rest ih1 ih2 =>
    intro rel dst h
    by_cases hd : matches_pattern d excPats
    · simp only [walkAux, hd, if_true] at h
      simp at h
      exact ih2 rel dst h
    · simp only [walkAux, hd, if_false, Bool.false_eq_true] at h
      rcases List.mem_append.mp h with h | h
      · exact ih1 rel dst h
      · exact ih2 rel dst h

/-- Claim C9: a folder rule that omits the `preserve_structure` key behaves
exactly as if it were `true`: the walk output is identical, and every
matching file is copied to `<destination>/<folder base name>/<relative
path>`. -/
theorem preserve_structure_default (destination : String) (cfg : FolderConfig)
    (entries : List Entry) :
    vendor_folder destination { cfg with preserve_structure := none } entries
      = vendor_folder destination { cfg with preserve_structure := some true } entries
    ∧ ∀ rel dst,
        (rel, dst) ∈
          (vendor_folder destination { cfg with preserve_structure := none } entries).2 →
        dst = (destination ++ "/" ++ baseName cfg.path) ++ "/" ++ rel := by
  refine ⟨rfl, fun rel dst h => ?_⟩
  exact walkAux_preserve_dst cfg.incPatterns cfg.excPatterns
    (destination ++ "/" ++ baseName cfg.path) "" entries rel dst h

/-- Witness for `preserve_structure_default` at a concrete rule and
snapshot. -/
theorem preserve_structure_default_witness :
    vendor_folder "dest" ⟨"include", [], ["x"], none⟩ [Entry.file "a.h"]
      = vendor_folder "dest" ⟨"include", [], ["x"], some true⟩ [Entry.file "a.h"]
    ∧ "dest/include/a.h" = ("dest" ++ "/" ++ baseName "include") ++ "/" ++ "a.h" := by
  have h := preserve_structure_default "dest" ⟨"include", [], ["x"], none⟩ [Entry.file "a.h"]
  refine ⟨h.1, ?_⟩
  refine h.2 "a.h" "dest/include/a.h" ?_
  simp only [vendor_folder, walkAux]
  decide

/-- Claim C10: flat file destinations depend only on the base name: two
configured entries with equal base names share one destination path, and
after the copy loop runs, that path holds the later-listed entry's
content. -/
theorem flat_file_same_dst_overwrite (snapshot : List (String × String))
    (destination : String) (st : DestStore) (xs ys : List String)
    (p q c : String) (hbase : baseName p = baseName q)
    (hq : snapshot.lookup q = some c) :
    file_dst destination p = file_dst destination q
    ∧ vendor_files_flat snapshot destination (xs ++ p :: ys ++ [q]) st
        (file_dst destination p) = some c := by
  have hd : file_dst destination p = file_dst destination q := by
    unfold file_dst; rw [hbase]
  refine ⟨hd, ?_⟩
  unfold vendor_files_flat
  have hsplit : xs ++ p :: ys ++ [q] = (xs ++ p :: ys) ++ [q] := by simp
  rw [hsplit, List.foldl_append]
  simp [copy_file_step, hq, hd]

/-- Witness for `flat_file_same_dst_overwrite`: two configured paths with
base name `lib.h`; the loop leaves the later entry's content at the shared
destination. -/
theorem flat_file_same_dst_overwrite_witness :
    file_dst "dst" "src/lib.h" = file_dst "dst" "docs/lib.h"
    ∧ vendor_files_flat [("src/lib.h", "one"), ("docs/lib.h", "two")] "dst"
        ["src/lib.h", "docs/lib.h"] (fun _ => none) (file_dst "dst" "src/lib.h")
      = some "two" :=
  flat_file_same_dst_overwrite [("src/lib.h", "one"), ("docs/lib.h", "two")]
    "dst" (fun _ => none) [] [] "src/lib.h" "docs/lib.h" "two" (by decide) (by decide)

/-- Claim C4 counterexample: when the clone step fails with an exception
other than `CalledProcessError` (for example `FileNotFoundError` because
the `git` executable is absent), `_clone_repository` propagates the error
but the freshly created temporary directory is NOT removed. -/
theorem clone_failure_can_leak_tempdir :
    (clone_repository ⟨ProcOutcome.otherError, ProcOutcome.ok⟩).1 ≠ CloneResult.ok
    ∧ (clone_repository ⟨ProcOutcome.otherError, ProcOutcome.ok⟩).2 = false := by
  decide

/-- Claim C4 as amended: whenever the clone or the revision-switch
subprocess fails with a non-zero exit status — the `CalledProcessError`
path, re-raised as `RuntimeError` — the temporary directory is removed
before the error propagates. -/
theorem clone_exitfailure_removes_tempdir (e : CloneEnv)
    (h : (clone_repository e).1 = CloneResult.runtimeError) :
    (clone_repository e).2 = true := by
  rcases e with ⟨c1, c2⟩
  cases c1 <;> cases c2 <;> simp_all [clone_repository]

/-- Witness for `clone_exitfailure_removes_tempdir`: a failing clone
subprocess. -/
theorem clone_exitfailure_removes_tempdir_witness :
    (clone_repository ⟨ProcOutcome.exitFailure, ProcOutcome.ok⟩).2 = true :=
  clone_exitfailure_removes_tempdir ⟨ProcOutcome.exitFailure, ProcOutcome.ok⟩ (by decide)

/-- Claim C5: `check_and_update` never propagates an exception to its
caller: whenever the body raises, the orchestrator returns `false` (with
the same step trace), and a normal outcome is returned unchanged. -/
theorem check_and_update_total (env : OrchEnv) (force : Bool) :
    (∀ e t, check_and_update_body env force = (Except.error e, t) →
      check_and_update env force = (false, t))
    ∧ ∀ b t, check_and_update_body env force = (Except.ok b, t) →
      check_and_update env force = (b, t) := by
  constructor <;> intro x t h <;> simp [check_and_update, h]

/-- Witness for `check_and_update_total`: a failing version resolution is
caught and turned into a `false` return. -/
theorem check_and_update_total_witness :
    check_and_update ⟨Except.error "boom", none, Except.ok (), Except.ok (), Except.ok ()⟩ false
      = (false, [Step.resolve]) :=
  (check_and_update_total
    ⟨Except.error "boom", none, Except.ok (), Except.ok (), Except.ok ()⟩ false).1
    "boom" [Step.resolve] rfl

/-- Claim C6: with `force = true` and identical current/latest version
tags (and no failures), clone, vendoring, the ledger write and the cleanup
are all performed and the call returns `true`; with `force = false` and
equal tags it performs none of them and returns `false`. -/
theorem force_bypasses_version_check (env : OrchEnv) (v sha : String)
    (hl : env.latest = Except.ok (v, sha))
    (hc : env.currentVersion = some v)
    (h1 : env.cloneResult = Except.ok ())
    (h2 : env.vendorResult = Except.ok ())
    (h3 : env.saveResult = Except.ok ()) :
    check_and_update env true
      = (true, [Step.resolve, Step.readCurrent, Step.clone, Step.vendorStep,
          Step.saveVersion, Step.cleanup])
    ∧ check_and_update env false = (false, [Step.resolve, Step.readCurrent]) := by
  constructor <;>
    simp [check_and_update, check_and_update_body, hl, hc, h1, h2, h3]

/-- Witness for `force_bypasses_version_check`: current and latest both
`"v1.0"`, `force = true`. -/
theorem force_bypasses_version_check_witness :
    check_and_update
        ⟨Except.ok ("v1.0", "abc123"), some "v1.0", Except.ok (), Except.ok (), Except.ok ()⟩ true
      = (true, [Step.resolve, Step.readCurrent, Step.clone, Step.vendorStep,
          Step.saveVersion, Step.cleanup]) :=
  (force_bypasses_version_check
    ⟨Except.ok ("v1.0", "abc123"), some "v1.0", Except.ok (), Except.ok (), Except.ok ()⟩
    "v1.0" "abc123" rfl rfl rfl rfl rfl).1

end Vendor
